import Mathlib

/-! Verification development
 for the ai-voice-agent repository.

The Python sources are shallowly embedded as executable Lean definitions:
Python strings become Lean `String` (operating on their `List Char` data),
the in-memory conversation store (`services/call_manager.py`) becomes an
ordered association list threaded through the handlers, the durable call row
(`database.py`) becomes a `CallRecord` value, and each webhook handler of
`routes/voice.py` becomes a pure function from its inputs and the relevant
state to a TwiML verb list plus the updated state.  Fallible attribute reads
(`settings.support_phone_number`, which the `Settings` class does not define)
are embedded with `Except`.
-/

set_option maxRecDepth 8192

namespace VoiceAgent

/-! Section: Python string primitives -/

/-- The ASCII whitespace characters stripped by Python `str.strip()`
(the sources only ever strip ASCII text). -/
def pyWhitespace : List Char := [' ', '\t', '\n', '\r', '\x0b', '\x0c']

/-- Python `str.isspace` restricted to ASCII, as used by `str.strip()`. -/
def pyIsSpace (c : Char) : Bool := pyWhitespace.contains c

/-- Python `s.startswith(p)`. -/
def pyStartswith (s p : String) : Bool := p.data.isPrefixOf s.data

/-- Python `s.removeprefix(p)`: drops `p` from the front when present,
otherwise returns `s` unchanged. -/
def pyRemoveprefix (s p : String) : String :=
  if pyStartswith s p then ⟨s.data.drop p.data.length⟩ else s

/-- Python `str.strip()` on a character list: drop leading whitespace, then
drop trailing whitespace (implemented by reversing). -/
def pyStripList (l : List Char) : List Char :=
  ((l.dropWhile pyIsSpace).reverse.dropWhile pyIsSpace).reverse

/-- Python `s.strip()`. -/
def pyStrip (s : String) : String := ⟨pyStripList s.data⟩

/-- Python `s.lower()` (ASCII case mapping, which is all the sources need). -/
def pyLower (s : String) : String := ⟨s.data.map Char.toLower⟩

/-- An apostrophe character, used to build the literal spoken strings of the
sources without an apostrophe appearing inside a Lean string literal. -/
def apos : String := (Char.ofNat 39).toString

/-! Section: services/agent.py — transfer-intent classifier

The two keyword regexes of `agent.py` are embedded as decidable searchers
specialised to their exact patterns.  Both regexes have the shape
`\b(alt1|alt2|alt3)\b` with `re.IGNORECASE` and are used through
`re.search`, so the embedding lowercases the input and looks for a match of
one of the alternatives starting at any position preceded by a word
boundary and ending at a word boundary.  Every alternative starts and ends
with a word character, so the leading boundary amounts to "start of string
or previous character is not a word character", and the trailing boundary
to "end of string or next character is not a word character".  The only
star in either regex is `.*`, which cannot cross a newline (no `re.DOTALL`).
-/

def TRANSFER_SALES_PREFIX : String := "[TRANSFER_SALES]"

def TRANSFER_SUPPORT_PREFIX : String := "[TRANSFER_SUPPORT]"

/-- Python regex `\w` restricted to ASCII: letters, digits, underscore. -/
def isWordChar (c : Char) : Bool := c.isAlphanum || c == '_'

/-- A `\b` word boundary immediately after a word character: holds at end of
input or when the next character is not a word character. -/
def endBoundary (l : List Char) : Bool :=
  match l with
  | [] => true
  | c :: _ => !isWordChar c

/-- Matches `.*(kw1|…|kwn)\b` at the current position: zero or more
non-newline characters, then one of the literal keywords, ending at a word
boundary. -/
def dotStarKw (kws : List (List Char)) : List Char → Bool
  | [] => kws.any fun k => k.isPrefixOf ([] : List Char) && endBoundary ([] : List Char)
  | c :: rest =>
    (kws.any fun k => k.isPrefixOf (c :: rest) && endBoundary ((c :: rest).drop k.length)) ||
    (!(c == '\n') && dotStarKw kws rest)

/-- Matches the literal `lit` at the current position and then continues
with `k` on the remainder. -/
def litThen (lit : String) (k : List Char → Bool) (l : List Char) : Bool :=
  lit.data.isPrefixOf l && k (l.drop lit.data.length)

/-- The group of `SALES_KEYWORDS`:
`transfer you|connect you with.*(sales|representative|agent|pricing)|`
`let me (transfer|connect|put you through).*(sales|pricing)`,
matched at the current position. -/
def salesGroupAt (l : List Char) : Bool :=
  litThen "transfer you" endBoundary l ||
  litThen "connect you with"
    (dotStarKw ["sales".data, "representative".data, "agent".data, "pricing".data]) l ||
  litThen "let me " (fun r =>
    litThen "transfer" (dotStarKw ["sales".data, "pricing".data]) r ||
    litThen "connect" (dotStarKw ["sales".data, "pricing".data]) r ||
    litThen "put you through" (dotStarKw ["sales".data, "pricing".data]) r) l

/-- The group of `SUPPORT_KEYWORDS`:
`connect you with.*(support|technician|technical|tech team)|`
`let me (transfer|connect|put you through).*(support|technical|tech team)`,
matched at the current position. -/
def supportGroupAt (l : List Char) : Bool :=
  litThen "connect you with"
    (dotStarKw ["support".data, "technician".data, "technical".data, "tech team".data]) l ||
  litThen "let me " (fun r =>
    litThen "transfer" (dotStarKw ["support".data, "technical".data, "tech team".data]) r ||
    litThen "connect" (dotStarKw ["support".data, "technical".data, "tech team".data]) r ||
    litThen "put you through" (dotStarKw ["support".data, "technical".data, "tech team".data]) r) l

/-- Scans every position of the input, trying the group `alt` wherever a
leading `\b` boundary holds (every alternative begins with a word
character, so the boundary holds exactly when the previous character is
absent or is not a word character). -/
def searchFrom (alt : List Char → Bool) : Bool → List Char → Bool
  | prevWord, [] => !prevWord && alt []
  | prevWord, c :: rest =>
    (!prevWord && alt (c :: rest)) || searchFrom alt (isWordChar c) rest

/-- Embeds `re.search` of an `\b(…)\b` `IGNORECASE` pattern over the input. -/
def regexSearch (alt : List Char → Bool) (s : String) : Bool :=
  searchFrom alt false (pyLower s).data

/-- Embeds `SALES_KEYWORDS.search(s)` of agent.py viewed as a boolean. -/
def salesKeywordsSearch (s : String) : Bool := regexSearch salesGroupAt s

/-- Embeds `SUPPORT_KEYWORDS.search(s)` of agent.py viewed as a boolean. -/
def supportKeywordsSearch (s : String) : Bool := regexSearch supportGroupAt s

/-- Embeds `detect_transfer` of agent.py: marker prefixes first (sales checked
before support), then the support keyword fallback, then the sales keyword
fallback. -/
def detect_transfer (response : String) : Option String :=
  if pyStartswith response TRANSFER_SALES_PREFIX then some "sales"
  else if pyStartswith response TRANSFER_SUPPORT_PREFIX then some "support"
  else if supportKeywordsSearch response then some "support"
  else if salesKeywordsSearch response then some "sales"
  else none

/-- Embeds `strip_transfer_prefix` of agent.py:
`response.removeprefix(SALES).removeprefix(SUPPORT).strip()`. -/
def strip_transfer_prefix (response : String) : String :=
  pyStrip ( pyRemoveprefix ( pyRemoveprefix response TRANSFER_SALES_PREFIX) TRANSFER_SUPPORT_PREFIX)

/-! Section: services/agent.py — language-model gateway -/

/-- Outcome of the one provider RPC inside `get_ai_response`: the reply
arrived within the 8-second bound, the `asyncio.wait_for` timeout fired, or
some other exception was raised by the provider call. -/
inductive GroqOutcome where
  | success (content : String)
  | timedOut
  | failure
deriving DecidableEq

/-- The literal fallback returned on `asyncio.TimeoutError` (the two
adjacent Python string literals concatenate). -/
def TIMEOUT_FALLBACK : String :=
  "I apologize, but I" ++ apos ++ "m having a little trouble right now. " ++
  "Could you please repeat that, or I can connect you with a team member?"

/-- The literal fallback returned on any other provider exception. -/
def ERROR_FALLBACK : String :=
  "I" ++ apos ++ "m sorry, I" ++ apos ++ "m experiencing a technical issue at the moment. " ++
  "Please hold while I connect you with a team member, " ++
  "or you can call back in a few minutes."

/-- Embeds `get_ai_response` of agent.py as a function of the provider outcome: a
successful reply is stripped and returned; both failure modes are caught
and converted into fixed fallback strings, so the function always returns
an ordinary string value. -/
def get_ai_response (outcome : GroqOutcome) : String :=
  match outcome with
  | .success content => pyStrip content
  | .timedOut => TIMEOUT_FALLBACK
  | .failure => ERROR_FALLBACK

/-! Section: services/call_manager.py — in-memory conversation store

A `CallManager` instance's `_conversations` dict is embedded as an ordered
association list from call sid to turn list; Python dict semantics are
modelled faithfully: assignment replaces the value in place when the key
exists (keeping key order) and appends a new key at the end otherwise, and
`dict.pop(key, [])` removes the entry and returns its value (the default
when absent). -/

/-- One conversation turn as stored by `add_turn`. -/
structure Turn where
  role : String
  content : String
  timestamp : String
deriving DecidableEq

/-- The `_conversations` dict: call sid to ordered turn sequence. -/
abbrev ConversationMap := List (String × List Turn)

/-- Python `dict[sid] = v`: replace in place when present, append otherwise. -/
def setEntry (m : ConversationMap) (sid : String) (v : List Turn) : ConversationMap :=
  if m.any (fun e => e.1 == sid) then
    m.map (fun e => (e.1, if e.1 == sid then v else e.2))
  else m ++ [(sid, v)]

/-- Python `dict.get(sid)`. -/
def lookupEntry (m : ConversationMap) (sid : String) : Option (List Turn) :=
  (m.find? (fun e => e.1 == sid)).map Prod.snd

/-- Python `dict.pop(sid, …)`-style removal (keys are unique by
construction, so filtering is removal of the one entry). -/
def removeEntry (m : ConversationMap) (sid : String) : ConversationMap :=
  m.filter (fun e => !(e.1 == sid))

/-- Embeds `CallManager.start_call`: unconditionally resets the entry to `[]`. -/
def start_call (m : ConversationMap) (sid : String) : ConversationMap :=
  setEntry m sid []

/-- Embeds `CallManager.add_turn`: creates the entry when absent, then appends the
turn with a server-generated timestamp `ts`. -/
def add_turn (m : ConversationMap) (sid role content ts : String) : ConversationMap :=
  let m1 := if (lookupEntry m sid).isSome then m else start_call m sid
  setEntry m1 sid ((lookupEntry m1 sid).getD [] ++ [⟨role, content, ts⟩])

/-- Embeds `CallManager.get_history`: `dict.get(sid, [])`. -/
def get_history (m : ConversationMap) (sid : String) : List Turn :=
  (lookupEntry m sid).getD []

/-- Embeds `CallManager.get_openai_messages`: caller turns become `user` messages,
everything else becomes `assistant`. -/
def get_openai_messages (m : ConversationMap) (sid : String) : List (String × String) :=
  (get_history m sid).map fun t =>
    if t.role == "caller" then ("user", t.content) else ("assistant", t.content)

/-- Embeds `CallManager.end_call`: `dict.pop(sid, [])` — returns the stored turn
sequence (empty when absent) together with the store without the entry. -/
def end_call (m : ConversationMap) (sid : String) : List Turn × ConversationMap :=
  ((lookupEntry m sid).getD [], removeEntry m sid)

/-- Embeds `CallManager.get_active_call_sids`: the current keys. -/
def get_active_call_sids (m : ConversationMap) : List String :=
  m.map Prod.fst

/-! Section: services/hours.py — business-hours oracle

`is_business_hours` reads the local wall-clock `datetime.now(tz)`; the
embedding takes that local datetime as an explicit argument.  The source
builds `start_time`/`end_time` with `now.replace(hour=…, minute=…,
second=0, microsecond=0)` and compares full datetimes on the same calendar
day, which is a lexicographic comparison of (hour, minute, second,
microsecond); `timeKey` encodes that tuple as a single natural number. -/

/-- The local wall-clock datetime `datetime.now(tz)` as the source uses it:
Python `weekday()` (Monday = 0 … Sunday = 6) plus the time of day. -/
structure LocalDateTime where
  weekday : Nat
  hour : Nat
  minute : Nat
  second : Nat
  microsecond : Nat
deriving DecidableEq

/-- Python `s.split(sep)` for a one-character separator, on the character
list. -/
def splitChar (sep : Char) : List Char → List (List Char)
  | [] => [[]]
  | c :: rest =>
    if c == sep then [] :: splitChar sep rest
    else
      match splitChar sep rest with
      | [] => [[c]]
      | h :: t => (c :: h) :: t

/-- Python `int(s)` on a decimal digit string (the only use sites feed it
the `HH`/`MM` components of a well-formed configured time). -/
def digitsToNat (l : List Char) : Nat :=
  l.foldl (fun n c => n * 10 + (c.toNat - 48)) 0

/-- Embeds `map(int, s.split(":"))` on an `HH:MM` string (malformed configured
times are a startup error in the source, never a runtime path; the
embedding totalises them to `(0, 0)` junk instead of raising). -/
def parseHHMM (s : String) : Nat × Nat :=
  match splitChar ':' s.data with
  | [h, m] => (digitsToNat h, digitsToNat m)
  | _ => (0, 0)

/-- Encodes a time of day so that `Nat` order coincides with Python
datetime order for two datetimes on the same calendar day and timezone. -/
def timeKey (h m s us : Nat) : Nat :=
  ((h * 60 + m) * 60 + s) * 1000000 + us

/-- Embeds `is_business_hours` of hours.py, as a function of the configured window
and the local wall-clock datetime: weekends are always closed; otherwise
`start_time <= now <= end_time` where start/end carry second = 0 and
microsecond = 0 but `now` keeps its seconds and microseconds. -/
def is_business_hours (startS endS : String) (now : LocalDateTime) : Bool :=
  if now.weekday ≥ 5 then false
  else
    decide (timeKey (parseHHMM startS).1 (parseHHMM startS).2 0 0 ≤
      timeKey now.hour now.minute now.second now.microsecond) &&
    decide (timeKey now.hour now.minute now.second now.microsecond ≤
      timeKey (parseHHMM endS).1 (parseHHMM endS).2 0 0)

/-- Modelled from the spec: the spec's own wording of the §4.1 comparison —
open iff `start <= localtime(now) <= end` "using minute-granularity
wall-clock comparison", i.e. seconds and microseconds do not participate.
Used only to compare the spec's wording with `is_business_hours`. -/
def isOpenMinuteGranularity (startS endS : String) (now : LocalDateTime) : Bool :=
  if now.weekday ≥ 5 then false
  else
    decide ((parseHHMM startS).1 * 60 + (parseHHMM startS).2 ≤ now.hour * 60 + now.minute) &&
    decide (now.hour * 60 + now.minute ≤ (parseHHMM endS).1 * 60 + (parseHHMM endS).2)

/-- Embeds `get_closed_message` of hours.py (an f-string over the settings). -/
def get_closed_message (startS endS tz : String) : String :=
  "Thank you for calling. Our office is currently closed. " ++
  "Our business hours are " ++ startS ++ " to " ++ endS ++
  ", Monday through Friday, " ++ tz ++ " time. " ++
  "Please leave a message after the tone and we" ++ apos ++ "ll return your call " ++
  "on the next business day."

/-! Section: models.py and database.py — the durable call row

The database functions of database.py each run one SQL `UPDATE … WHERE
call_sid = $n`; the embedding shows their effect on the row for that sid as
a pure function on `CallRecord`. -/

/-- Embeds `CallStatus` of models.py. -/
inductive CallStatus where
  | active
  | completed
  | voicemail
  | transferred
deriving DecidableEq

/-- Embeds `CallRecord` of models.py (the durable call row). -/
structure CallRecord where
  call_sid : String
  from_number : String
  to_number : String
  status : CallStatus
  started_at : String
  ended_at : Option String
  transcript : List Turn
  voicemail_url : Option String
  transferred_to : Option String
deriving DecidableEq

/-- Python truthiness of the `ended_at : str | None = None` parameter:
`if ended_at:` is false for `None` and for the empty string. -/
def pyTruthy (s : Option String) : Bool :=
  match s with
  | none => false
  | some v => !(v == "")

/-- Embeds `update_call_status` of database.py: an unconditional `UPDATE` — when a
truthy `ended_at` is passed it sets both status and `ended_at`, otherwise
only the status.  There is no guard on the current status. -/
def update_call_status (rec : CallRecord) (status : CallStatus) (ended_at : Option String) :
    CallRecord :=
  if pyTruthy ended_at then { rec with status := status, ended_at := ended_at }
  else { rec with status := status }

/-- Embeds `update_call_transcript` of database.py. -/
def update_call_transcript (rec : CallRecord) (transcript : List Turn) : CallRecord :=
  { rec with transcript := transcript }

/-- Embeds `update_call_voicemail` of database.py: sets the recording URL and the
voicemail status; it does not touch `ended_at`. -/
def update_call_voicemail (rec : CallRecord) (url : String) : CallRecord :=
  { rec with voicemail_url := some url, status := CallStatus.voicemail }

/-- Embeds `update_call_transferred_to` of database.py. -/
def update_call_transferred_to (rec : CallRecord) (dept : String) : CallRecord :=
  { rec with transferred_to := some dept }

/-! Section: config.py — the Settings schema

`Settings` is a pydantic `BaseSettings` model; reading an attribute that the
class does not declare raises `AttributeError` (and `.env`/assignment cannot
introduce undeclared fields, since the model ignores extras and rejects
assignment to unknown fields).  Attribute access is therefore embedded as a
name-indexed lookup over exactly the fields declared in config.py, with
`none` standing for the `AttributeError` case. -/

/-- Embeds `Settings` of config.py, with exactly the fields the class declares. -/
structure Settings where
  groq_api_key : String
  twilio_account_sid : String
  twilio_auth_token : String
  twilio_phone_number : String
  sales_phone_number : String
  business_hours_start : String
  business_hours_end : String
  business_timezone : String
  dashboard_token : String
  host : String
  port : Nat
  database_url : String

/-- A settings attribute value (fields are strings except `port`). -/
inductive AttrValue where
  | str (s : String)
  | nat (n : Nat)
deriving DecidableEq

/-- Python attribute access `getattr(settings, name)` on the `Settings`
model: `some` for each field declared in config.py, `none` (standing for
`AttributeError`) for every other name. -/
def Settings.getattr (s : Settings) (name : String) : Option AttrValue :=
  if name == "groq_api_key" then some (.str s.groq_api_key)
  else if name == "twilio_account_sid" then some (.str s.twilio_account_sid)
  else if name == "twilio_auth_token" then some (.str s.twilio_auth_token)
  else if name == "twilio_phone_number" then some (.str s.twilio_phone_number)
  else if name == "sales_phone_number" then some (.str s.sales_phone_number)
  else if name == "business_hours_start" then some (.str s.business_hours_start)
  else if name == "business_hours_end" then some (.str s.business_hours_end)
  else if name == "business_timezone" then some (.str s.business_timezone)
  else if name == "dashboard_token" then some (.str s.dashboard_token)
  else if name == "host" then some (.str s.host)
  else if name == "port" then some (.nat s.port)
  else if name == "database_url" then some (.str s.database_url)
  else none

/-- The field defaults of config.py. -/
def defaultSettings : Settings :=
  { groq_api_key := ""
    twilio_account_sid := ""
    twilio_auth_token := ""
    twilio_phone_number := ""
    sales_phone_number := "+1234567890"
    business_hours_start := "09:00"
    business_hours_end := "17:00"
    business_timezone := "America/New_York"
    dashboard_token := ""
    host := "0.0.0.0"
    port := 8000
    database_url := "" }

/-- Embeds `ConfigUpdate` of models.py: the only fields the dashboard PUT body can
carry. -/
structure ConfigUpdate where
  business_hours_start : Option String
  business_hours_end : Option String
  business_timezone : Option String
  sales_phone_number : Option String

/-- Attribute access on a `ConfigUpdate` body, again with `none` standing
for `AttributeError` on undeclared names. -/
def ConfigUpdate.getattr (u : ConfigUpdate) (name : String) : Option (Option String) :=
  if name == "business_hours_start" then some u.business_hours_start
  else if name == "business_hours_end" then some u.business_hours_end
  else if name == "business_timezone" then some u.business_timezone
  else if name == "sales_phone_number" then some u.sales_phone_number
  else none

/-- Embeds `update_config` of routes/api.py: applies the four declared fields of
the body when present, then reaches `update.support_phone_number` — an
attribute `ConfigUpdate` does not declare — so the handler faults before it
could ever install a support number. -/
def update_config (u : ConfigUpdate) (cfg : Settings) : Except String Settings :=
  let cfg1 := match u.business_hours_start with
    | some v => { cfg with business_hours_start := v }
    | none => cfg
  let cfg2 := match u.business_hours_end with
    | some v => { cfg1 with business_hours_end := v }
    | none => cfg1
  let cfg3 := match u.business_timezone with
    | some v => { cfg2 with business_timezone := v }
    | none => cfg2
  let cfg4 := match u.sales_phone_number with
    | some v => { cfg3 with sales_phone_number := v }
    | none => cfg3
  match u.getattr "support_phone_number" with
  | some _ => .ok cfg4
  | none => .error "AttributeError: support_phone_number"

/-! Section: routes/voice.py — webhook handlers

Each handler becomes a pure function of the webhook form fields, the
relevant state (conversation store, durable row) and the ambient inputs the
source reads (settings, local time, generated timestamps, provider
outcome).  The TwiML verbs a handler emits are recorded in order. -/

/-- The TwiML verbs the handlers emit. -/
inductive TwimlVerb where
  | say (text : String)
  | gatherSpeech (sayText : String)
  | gatherDigits (sayText : String)
  | recordVoicemail
  | redirect (url : String)
  | dial (number : String)
  | hangup
deriving DecidableEq

/-- The greeting of `handle_incoming_call`. -/
def GREETING : String := "Hello! Thank you for calling. How can I help you today?"

/-- Result of the incoming-call handler. -/
structure IncomingCallResult where
  twiml : List TwimlVerb
  store : ConversationMap
  record : CallRecord
deriving DecidableEq

/-- Embeds `handle_incoming_call` of routes/voice.py: saves a fresh Active row,
unconditionally resets the conversation-store entry, and only then checks
business hours — after hours it says the closed message and requests a
recorded voicemail, otherwise it greets and gathers speech. -/
def handle_incoming_call (cfg : Settings) (now : LocalDateTime) (nowIso ts : String)
    (CallSid From To : String) (store : ConversationMap) : IncomingCallResult :=
  let record : CallRecord :=
    { call_sid := CallSid
      from_number := From
      to_number := To
      status := .active
      started_at := nowIso
      ended_at := none
      transcript := []
      voicemail_url := none
      transferred_to := none }
  let store1 := start_call store CallSid
  if !(is_business_hours cfg.business_hours_start cfg.business_hours_end now) then
    { twiml := [.say (get_closed_message cfg.business_hours_start cfg.business_hours_end
                  cfg.business_timezone),
                .recordVoicemail,
                .say "We did not receive a recording. Goodbye."]
      store := store1
      record := record }
  else
    let store2 := add_turn store1 CallSid "assistant" GREETING ts
    { twiml := [.gatherSpeech GREETING,
                .say ("I didn" ++ apos ++ "t catch that. Let me try again."),
                .redirect "/voice/incoming"]
      store := store2
      record := record }

/-- The sentinel placeholder the source compares the sales number against. -/
def PLACEHOLDER_SALES : String := "+1234567890"

/-- Embeds `_build_transfer_twiml` of routes/voice.py.  Its first statements read
`settings.sales_phone_number` and `settings.support_phone_number`; the
latter is not declared by `Settings`, so the read raises `AttributeError`
(the `.error` result) before any TwiML is built. -/
def build_transfer_twiml (cfg : Settings) (department : String) :
    Except String (List TwimlVerb) :=
  match cfg.getattr "sales_phone_number", cfg.getattr "support_phone_number" with
  | some (.str sales_num), some (.str support_num) =>
    let has_sales := !(sales_num == "") && !(sales_num == PLACEHOLDER_SALES)
    let has_support := !(support_num == "")
    if has_sales && has_support then
      .ok [.gatherDigits "Press 1 for Braydon in Sales. Press 2 for Phong in Support.",
           .say ("No selection received. Connecting you to " ++
             (if department == "sales" then "Braydon" else "Phong") ++ "."),
           .dial (if department == "sales" then sales_num else support_num)]
    else if has_sales then .ok [.dial sales_num]
    else if has_support then .ok [.dial support_num]
    else
      .ok [.say ("I" ++ apos ++ "m sorry, we don" ++ apos ++
             "t have a transfer number configured at the moment. " ++
             "Please try calling back later. Goodbye."),
           .hangup]
  | _, _ => .error "AttributeError: support_phone_number"

/-- Result of the speech-loop and status handlers that touch both the store
and the durable row. -/
structure HandlerResult where
  twiml : List TwimlVerb
  store : ConversationMap
  record : CallRecord
deriving DecidableEq

/-- Embeds `handle_response` of routes/voice.py: appends the caller turn, gets the
(embedded) gateway reply, classifies it; on a department it appends the
stripped assistant turn, drains the store, persists transcript and the
Transferred status (without an end timestamp), then builds the transfer
TwiML (which faults on the missing support number); on `none` it appends
the assistant turn and keeps gathering speech. -/
def handle_response (cfg : Settings) (outcome : GroqOutcome)
    (CallSid SpeechResult ts : String) (store : ConversationMap) (rec : CallRecord) :
    Except String HandlerResult :=
  let store1 := add_turn store CallSid "caller" SpeechResult ts
  let ai_text := get_ai_response outcome
  match detect_transfer ai_text with
  | some department =>
    let transition_message := strip_transfer_prefix ai_text
    let store2 := add_turn store1 CallSid "assistant" transition_message ts
    let drained := end_call store2 CallSid
    let rec1 := update_call_transcript rec drained.1
    let rec2 := update_call_status rec1 .transferred none
    match build_transfer_twiml cfg department with
    | .ok verbs => .ok ⟨.say transition_message :: verbs, drained.2, rec2⟩
    | .error e => .error e
  | none =>
    let store2 := add_turn store1 CallSid "assistant" ai_text ts
    .ok ⟨[.gatherSpeech ai_text,
          .say "It seems like you may have stepped away. Thank you for calling. Goodbye!"],
         store2, rec⟩

/-- Embeds `handle_transfer` of routes/voice.py (the DTMF digit-press handler).
Like the builder, it reads `settings.support_phone_number` before doing
anything else, so under the shipped `Settings` schema every invocation
faults. -/
def handle_transfer (cfg : Settings) (Digits : String) (rec : CallRecord) :
    Except String (List TwimlVerb × CallRecord) :=
  match cfg.getattr "sales_phone_number", cfg.getattr "support_phone_number" with
  | some (.str sales_num), some (.str support_num) =>
    if Digits == "1" && !(sales_num == "") then
      .ok ([.say "Connecting you to Braydon now.", .dial sales_num],
           update_call_transferred_to rec "sales")
    else if Digits == "2" && !(support_num == "") then
      .ok ([.say "Connecting you to Phong now.", .dial support_num],
           update_call_transferred_to rec "support")
    else
      .ok ([.gatherDigits ("Sorry, that wasn" ++ apos ++ "t a valid option. " ++
              "Press 1 for Braydon in Sales. Press 2 for Phong in Support."),
            .say "Connecting you to Braydon.",
            .dial sales_num], rec)
  | _, _ => .error "AttributeError: support_phone_number"

/-- Embeds `handle_voicemail` of routes/voice.py: persists the recording URL with
the voicemail status, thanks the caller and hangs up; the in-memory store is
untouched. -/
def handle_voicemail (RecordingUrl : String) (rec : CallRecord) :
    List TwimlVerb × CallRecord :=
  ([.say ("Thank you for your message. We" ++ apos ++
      "ll get back to you as soon as possible. Goodbye!"),
    .hangup],
   update_call_voicemail rec RecordingUrl)

/-- The provider statuses `handle_status_callback` treats as terminal. -/
def TERMINAL_STATUSES : List String :=
  ["completed", "busy", "no-answer", "failed", "canceled"]

/-- Embeds `handle_status_callback` of routes/voice.py: on a terminal provider
status it drains the store, persists a non-empty transcript, and runs
`update_call_status(sid, COMPLETED, ended_at=now)` unconditionally — there
is no check of the row's current status. -/
def handle_status_callback (CallSid callStatus : String) (nowIso : String)
    (store : ConversationMap) (rec : CallRecord) : HandlerResult :=
  if TERMINAL_STATUSES.contains callStatus then
    let drained := end_call store CallSid
    let rec1 := if !(drained.1 == []) then update_call_transcript rec drained.1 else rec
    let rec2 := update_call_status rec1 .completed (some nowIso)
    ⟨[], drained.2, rec2⟩
  else ⟨[], store, rec⟩

/-! Section: Sample records used by concrete theorems -/

/-- A call row already finalized as Transferred (as the transfer step of
`handle_response` leaves it). -/
def transferredRecord : CallRecord :=
  { call_sid := "CA1"
    from_number := "+15550001111"
    to_number := "+15550002222"
    status := .transferred
    started_at := "2026-10-12T14:00:00+00:00"
    ended_at := none
    transcript := []
    voicemail_url := none
    transferred_to := some "sales" }

/-- A call row already finalized as Voicemail (as `handle_voicemail` leaves
it). -/
def voicemailRecord : CallRecord :=
  { call_sid := "CA2"
    from_number := "+15550003333"
    to_number := "+15550002222"
    status := .voicemail
    started_at := "2026-10-12T02:00:00+00:00"
    ended_at := none
    transcript := []
    voicemail_url := some "https://api.twilio.com/rec/RE1"
    transferred_to := none }

/-- A freshly created Active call row, as `handle_incoming_call` saves it. -/
def activeRecord : CallRecord :=
  { call_sid := "CA3"
    from_number := "+15550004444"
    to_number := "+15550002222"
    status := .active
    started_at := "2026-10-12T14:10:00+00:00"
    ended_at := none
    transcript := []
    voicemail_url := none
    transferred_to := none }

/-! Section: Helper lemmas -/

theorem head?_dropWhile_false (p : Char → Bool) (l : List Char) (c : Char)
    (h : (l.dropWhile p).head? = some c) : p c = false := by
  induction l with
  | nil => simp [List.dropWhile] at h
  | cons a t ih =>
    by_cases hpa : p a = true
    · rw [List.dropWhile_cons_of_pos hpa] at h; exact ih h
    · rw [List.dropWhile_cons_of_neg hpa] at h
      simp at h
      rw [← h]
      simpa using hpa

theorem dropWhile_eq_self_of_head (p : Char → Bool) (l : List Char)
    (h : ∀ c, l.head? = some c → p c = false) : l.dropWhile p = l := by
  cases l with
  | nil => rfl
  | cons a t => simp [List.dropWhile, h a rfl]

theorem head?_of_prefix (l₁ l₂ : List Char) (h : l₁ <+: l₂) (hne : l₁ ≠ []) :
    l₁.head? = l₂.head? := by
  obtain ⟨r, rfl⟩ := h
  cases l₁ with
  | nil => exact absurd rfl hne
  | cons a t => rfl

/-- Python `str.strip()` is idempotent (on the character-list embedding). -/
theorem pyStripList_idem (l : List Char) : pyStripList (pyStripList l) = pyStripList l := by
  have hsuf : (l.dropWhile pyIsSpace).reverse.dropWhile pyIsSpace
      <:+ (l.dropWhile pyIsSpace).reverse := List.dropWhile_suffix pyIsSpace
  have htm : ((l.dropWhile pyIsSpace).reverse.dropWhile pyIsSpace).reverse
      <+: l.dropWhile pyIsSpace := by
    rw [← List.reverse_suffix]
    simpa using hsuf
  have hA : (((l.dropWhile pyIsSpace).reverse.dropWhile pyIsSpace).reverse).dropWhile pyIsSpace
      = ((l.dropWhile pyIsSpace).reverse.dropWhile pyIsSpace).reverse := by
    apply dropWhile_eq_self_of_head
    intro c hc
    have hne : ((l.dropWhile pyIsSpace).reverse.dropWhile pyIsSpace).reverse ≠ [] := by
      intro hnil
      rw [hnil] at hc
      simp at hc
    have hhead := head?_of_prefix _ _ htm hne
    rw [hc] at hhead
    exact head?_dropWhile_false pyIsSpace l c hhead.symm
  unfold pyStripList
  rw [hA, List.reverse_reverse, List.dropWhile_idempotent]

/-- Python `str.strip()` is idempotent. -/
theorem pyStrip_idem (s : String) : pyStrip (pyStrip s) = pyStrip s :=
  congrArg String.mk (pyStripList_idem s.data)

theorem lookupEntry_removeEntry (m : ConversationMap) (sid : String) :
    lookupEntry (removeEntry m sid) sid = none := by
  simp only [lookupEntry, Option.map_eq_none', List.find?_eq_none, removeEntry]
  intro e he
  have := (List.mem_filter.mp he).2
  simpa using this

theorem not_mem_keys_removeEntry (m : ConversationMap) (sid : String) :
    sid ∉ get_active_call_sids (removeEntry m sid) := by
  intro hmem
  simp only [get_active_call_sids, removeEntry, List.mem_map] at hmem
  obtain ⟨e, he, heq⟩ := hmem
  have := (List.mem_filter.mp he).2
  rw [heq] at this
  simp at this

theorem mem_keys_setEntry (m : ConversationMap) (sid : String) (v : List Turn) :
    sid ∈ get_active_call_sids (setEntry m sid v) := by
  unfold setEntry get_active_call_sids
  by_cases h : m.any (fun e => e.1 == sid) = true
  · rw [if_pos h]
    obtain ⟨e, he, hb⟩ := List.any_eq_true.mp h
    rw [List.map_map]
    refine List.mem_map.mpr ⟨e, he, ?_⟩
    simpa using (eq_of_beq hb)
  · rw [if_neg h]
    simp

/-- The literal sales marker is not a prefix of any string the support
marker prefixes (the markers disagree at their eleventh character), so the
source's sales-first prefix check cannot shadow a support marker. -/
theorem support_marker_not_sales (s : String)
    (h : pyStartswith s TRANSFER_SUPPORT_PREFIX = true) :
    pyStartswith s TRANSFER_SALES_PREFIX = false := by
  by_contra hne
  rw [Bool.not_eq_false] at hne
  unfold pyStartswith at h hne
  have h1 := List.isPrefixOf_iff_prefix.mp h
  have h2 := List.isPrefixOf_iff_prefix.mp hne
  rcases List.prefix_or_prefix_of_prefix h2 h1 with hc | hc
  · exact absurd hc (by decide)
  · exact absurd hc (by decide)

/-! Section: Claim theorems -/

/-- Claim C1 (the code contradicts it): `update_call_status` runs an
unconditional SQL `UPDATE`, so the external-status event's
Completed-finalize applied by `handle_status_callback` to a record already
in Transferred or Voicemail status does NOT leave the status unchanged — it
downgrades both terminal statuses to Completed. -/
theorem status_callback_downgrades_terminal_status :
    transferredRecord.status = CallStatus.transferred ∧
    (handle_status_callback "CA1" "completed" "2026-10-12T14:05:00+00:00" []
      transferredRecord).record.status = CallStatus.completed ∧
    voicemailRecord.status = CallStatus.voicemail ∧
    (handle_status_callback "CA2" "completed" "2026-10-12T14:05:00+00:00" []
      voicemailRecord).record.status = CallStatus.completed :=
  ⟨rfl, rfl, rfl, rfl⟩

/-- Counterexample to claim C2 as stated: an after-hours incoming call DOES
put its call id into the Conversation Store's active id list, because
`handle_incoming_call` runs `start_call` before the business-hours check
(Saturday noon is outside the default 09:00–17:00 weekday window). -/
theorem after_hours_call_enters_active_ids :
    is_business_hours defaultSettings.business_hours_start
      defaultSettings.business_hours_end ⟨5, 12, 0, 0, 0⟩ = false ∧
    get_active_call_sids
      (handle_incoming_call defaultSettings ⟨5, 12, 0, 0, 0⟩ "2026-10-10T16:00:00+00:00"
        "2026-10-10T16:00:00+00:00" "CA1" "+15550001111" "+15550002222" []).store
      = ["CA1"] :=
  ⟨rfl, rfl⟩

/-- Claim C2 (amended): outside business hours the handler emits exactly
the closed-hours message followed by a record-voicemail directive and the
no-recording goodbye, never enters the speech loop (no speech gather is
emitted), but — contrary to the original claim — the call id IS present in
the Conversation Store's active id list, because the store entry is created
before the hours check. -/
theorem after_hours_no_speech_loop_but_store_entry (cfg : Settings)
    (now : LocalDateTime) (nowIso ts sid fromN toN : String) (store : ConversationMap)
    (h : is_business_hours cfg.business_hours_start cfg.business_hours_end now = false) :
    (handle_incoming_call cfg now nowIso ts sid fromN toN store).twiml =
      [TwimlVerb.say (get_closed_message cfg.business_hours_start cfg.business_hours_end
          cfg.business_timezone),
       TwimlVerb.recordVoicemail,
       TwimlVerb.say "We did not receive a recording. Goodbye."] ∧
    (∀ txt, TwimlVerb.gatherSpeech txt ∉
      (handle_incoming_call cfg now nowIso ts sid fromN toN store).twiml) ∧
    sid ∈ get_active_call_sids (handle_incoming_call cfg now nowIso ts sid fromN toN store).store := by
  refine ⟨?_, ?_, ?_⟩
  · simp [handle_incoming_call, h]
  · intro txt
    simp [handle_incoming_call, h]
  · have hst : (handle_incoming_call cfg now nowIso ts sid fromN toN store).store
        = start_call store sid := by
      simp [handle_incoming_call, h]
    rw [hst]
    exact mem_keys_setEntry store sid []

/-- Witness for the amended C2 theorem at a concrete Saturday-noon call. -/
theorem after_hours_no_speech_loop_but_store_entry_witness :
    is_business_hours defaultSettings.business_hours_start
      defaultSettings.business_hours_end ⟨5, 12, 0, 0, 0⟩ = false ∧
    "CA9" ∈ get_active_call_sids
      (handle_incoming_call defaultSettings ⟨5, 12, 0, 0, 0⟩ "2026-10-10T16:00:00+00:00"
        "t0" "CA9" "+15550000001" "+15550000002" []).store :=
  ⟨by decide,
   (after_hours_no_speech_loop_but_store_entry defaultSettings ⟨5, 12, 0, 0, 0⟩
      "2026-10-10T16:00:00+00:00" "t0" "CA9" "+15550000001" "+15550000002" []
      (by decide)).2.2⟩

/-- Claim C3: the `Settings` schema of config.py declares no
`support_phone_number` field, so the attribute read embedded by `getattr`
yields `none` for every configuration value; consequently every execution
of the transfer-TwiML builder and of the digit-press handler takes the
`AttributeError` branch and produces no transfer markup, and the dashboard
config endpoint can never install such a field either (its `ConfigUpdate`
body lacks it too). -/
theorem support_phone_number_read_always_faults :
    (∀ cfg : Settings, cfg.getattr "support_phone_number" = none) ∧
    (∀ cfg : Settings, ∀ department : String,
      build_transfer_twiml cfg department =
        Except.error "AttributeError: support_phone_number") ∧
    (∀ cfg : Settings, ∀ digits : String, ∀ rec : CallRecord,
      handle_transfer cfg digits rec =
        Except.error "AttributeError: support_phone_number") ∧
    (∀ u : ConfigUpdate, ∀ cfg : Settings,
      update_config u cfg = Except.error "AttributeError: support_phone_number") :=
  ⟨fun _ => rfl, fun _ _ => rfl, fun _ _ _ => rfl, fun _ _ => rfl⟩

/-- Claim C4: `end_call` removes and returns the stored turn sequence (the
empty sequence when the id is absent); draining twice yields the transcript
exactly once — the first call returns the stored turns, the entry is gone
afterwards, and the second call returns the empty sequence. -/
theorem end_call_at_most_once (m : ConversationMap) (sid : String) :
    (end_call m sid).1 = get_history m sid ∧
    sid ∉ get_active_call_sids (end_call m sid).2 ∧
    (end_call (end_call m sid).2 sid).1 = [] := by
  refine ⟨rfl, not_mem_keys_removeEntry m sid, ?_⟩
  show (lookupEntry (removeEntry m sid) sid).getD [] = []
  rw [lookupEntry_removeEntry]
  rfl

/-- Counterexample to claim C5 as stated: the transfer-finalize step
(`update_call_status(sid, TRANSFERRED)`, called without an end timestamp)
and the voicemail-recorded step (`handle_voicemail`, whose database update
sets only the URL and status) both leave a terminal-status record with a
null `ended_at`, so "`ended_at` is set iff status is terminal" fails. -/
theorem transfer_and_voicemail_finalize_leave_ended_at_null :
    (update_call_status activeRecord .transferred none).status = CallStatus.transferred ∧
    (update_call_status activeRecord .transferred none).ended_at = none ∧
    ((handle_voicemail "https://api.twilio.com/rec/RE2" activeRecord).2).status
      = CallStatus.voicemail ∧
    ((handle_voicemail "https://api.twilio.com/rec/RE2" activeRecord).2).ended_at = none :=
  ⟨rfl, rfl, rfl, rfl⟩

/-- Claim C5 (amended): of the lifecycle transitions, only the
Completed-finalize sets `ended_at`: the transfer-finalize step marks the
record Transferred leaving `ended_at` unchanged (hence null for a live
call), the voicemail step marks it Voicemail leaving `ended_at` unchanged,
and `update_call_status` to Completed with a non-empty timestamp sets both
the status and the end timestamp. -/
theorem ended_at_only_set_by_completed_finalize :
    (∀ rec : CallRecord,
      (update_call_status rec .transferred none).status = CallStatus.transferred ∧
      (update_call_status rec .transferred none).ended_at = rec.ended_at) ∧
    (∀ rec : CallRecord, ∀ url : String,
      (update_call_voicemail rec url).status = CallStatus.voicemail ∧
      (update_call_voicemail rec url).ended_at = rec.ended_at) ∧
    (∀ rec : CallRecord, ∀ e : String, (e == "") = false →
      (update_call_status rec .completed (some e)).status = CallStatus.completed ∧
      (update_call_status rec .completed (some e)).ended_at = some e) := by
  refine ⟨fun rec => ⟨rfl, rfl⟩, fun rec url => ⟨rfl, rfl⟩, fun rec e he => ?_⟩
  have ht : pyTruthy (some e) = true := by
    unfold pyTruthy
    simp [he]
  constructor
  · simp [update_call_status, ht]
  · simp [update_call_status, ht]

/-- Witness for the amended C5 theorem at a concrete end timestamp. -/
theorem ended_at_only_set_by_completed_finalize_witness :
    (("2026-10-12T14:05:00+00:00" == "") = false) ∧
    (update_call_status activeRecord .completed
      (some "2026-10-12T14:05:00+00:00")).status = CallStatus.completed ∧
    (update_call_status activeRecord .completed
      (some "2026-10-12T14:05:00+00:00")).ended_at = some "2026-10-12T14:05:00+00:00" :=
  ⟨by decide,
   (ended_at_only_set_by_completed_finalize.2.2 activeRecord
     "2026-10-12T14:05:00+00:00" (by decide)).1,
   (ended_at_only_set_by_completed_finalize.2.2 activeRecord
     "2026-10-12T14:05:00+00:00" (by decide)).2⟩

/-- Claim C9: the gateway embedding is a total function — on timeout it
returns the literal fallback beginning "I apologize, but I'm having a
little trouble right now.", on any other provider failure it returns the
fixed technical-issue fallback, and on success it returns the stripped
reply — so in every case the result is an ordinary string value and call
flow continues (the two `except` clauses of `get_ai_response` catch both
failure modes; no exception escapes to the caller). -/
theorem gateway_fallbacks_total :
    get_ai_response .timedOut = TIMEOUT_FALLBACK ∧
    pyStartswith TIMEOUT_FALLBACK
      ("I apologize, but I" ++ apos ++ "m having a little trouble right now.") = true ∧
    get_ai_response .failure = ERROR_FALLBACK ∧
    (∀ c : String, get_ai_response (.success c) = pyStrip c) :=
  ⟨rfl, by decide, rfl, fun _ => rfl⟩

/-- Claim C10: neither of the gateway's two fixed fallback strings starts
with a department marker, and neither matches the support or sales keyword
fallback patterns, so `detect_transfer` classifies both as `none` and a
degraded gateway reply never triggers a transfer. -/
theorem fallback_strings_classify_none :
    pyStartswith TIMEOUT_FALLBACK TRANSFER_SALES_PREFIX = false ∧
    pyStartswith TIMEOUT_FALLBACK TRANSFER_SUPPORT_PREFIX = false ∧
    supportKeywordsSearch TIMEOUT_FALLBACK = false ∧
    salesKeywordsSearch TIMEOUT_FALLBACK = false ∧
    detect_transfer TIMEOUT_FALLBACK = none ∧
    pyStartswith ERROR_FALLBACK TRANSFER_SALES_PREFIX = false ∧
    pyStartswith ERROR_FALLBACK TRANSFER_SUPPORT_PREFIX = false ∧
    supportKeywordsSearch ERROR_FALLBACK = false ∧
    salesKeywordsSearch ERROR_FALLBACK = false ∧
    detect_transfer ERROR_FALLBACK = none := by
  refine ⟨by decide, by decide, by decide, by decide, by decide,
    by decide, by decide, by decide, by decide, by decide⟩

/-- Counterexample to claim C6 as stated: `strip_transfer_prefix` is not
idempotent on every string — leading whitespace hides a marker from the
first pass but the trailing `strip()` then exposes it to the second pass —
and it is not a no-op on marker-free input carrying surrounding whitespace. -/
theorem strip_transfer_not_idempotent :
    strip_transfer_prefix ( strip_transfer_prefix " [TRANSFER_SALES] hi") ≠
      strip_transfer_prefix " [TRANSFER_SALES] hi" ∧
    strip_transfer_prefix " hello" ≠ " hello" :=
  ⟨by decide, by decide⟩

/-- Claim C6 (amended): `strip_transfer_prefix` is idempotent on every
input whose result does not itself start with a department marker (the only
way a second pass can act further), and it is a no-op exactly on inputs
with no leading marker and no surrounding whitespace (`strip()` already the
identity). -/
theorem strip_transfer_conditionally_idempotent :
    (∀ x : String,
      pyStartswith ( strip_transfer_prefix x) TRANSFER_SALES_PREFIX = false →
      pyStartswith ( strip_transfer_prefix x) TRANSFER_SUPPORT_PREFIX = false →
      strip_transfer_prefix ( strip_transfer_prefix x) = strip_transfer_prefix x) ∧
    (∀ x : String,
      pyStartswith x TRANSFER_SALES_PREFIX = false →
      pyStartswith x TRANSFER_SUPPORT_PREFIX = false →
      pyStrip x = x →
      strip_transfer_prefix x = x) := by
  constructor
  · intro x h1 h2
    have hy : pyRemoveprefix ( pyRemoveprefix ( strip_transfer_prefix x)
        TRANSFER_SALES_PREFIX) TRANSFER_SUPPORT_PREFIX = strip_transfer_prefix x := by
      simp [ pyRemoveprefix, h1, h2]
    show pyStrip ( pyRemoveprefix ( pyRemoveprefix ( strip_transfer_prefix x)
        TRANSFER_SALES_PREFIX) TRANSFER_SUPPORT_PREFIX) = strip_transfer_prefix x
    rw [hy]
    exact pyStrip_idem ( pyRemoveprefix ( pyRemoveprefix x TRANSFER_SALES_PREFIX)
      TRANSFER_SUPPORT_PREFIX)
  · intro x h1 h2 h3
    show pyStrip ( pyRemoveprefix ( pyRemoveprefix x TRANSFER_SALES_PREFIX)
        TRANSFER_SUPPORT_PREFIX) = x
    rw [show pyRemoveprefix x TRANSFER_SALES_PREFIX = x by simp [ pyRemoveprefix, h1]]
    rw [show pyRemoveprefix x TRANSFER_SUPPORT_PREFIX = x by simp [ pyRemoveprefix, h2]]
    exact h3

/-- Witness for the amended C6 theorem at a concrete marker reply. -/
theorem strip_transfer_conditionally_idempotent_witness :
    pyStartswith ( strip_transfer_prefix "[TRANSFER_SALES] Sure thing!")
      TRANSFER_SALES_PREFIX = false ∧
    strip_transfer_prefix ( strip_transfer_prefix "[TRANSFER_SALES] Sure thing!") =
      strip_transfer_prefix "[TRANSFER_SALES] Sure thing!" :=
  ⟨by decide,
   strip_transfer_conditionally_idempotent.1 "[TRANSFER_SALES] Sure thing!"
     (by decide) (by decide)⟩

/-- Counterexample to claim C7 as stated: a Tuesday instant whose wall
clock reads 17:00 (hour 17, minute 0, second 30) is inside the window under
the claim's minute-granularity comparison, yet `is_business_hours` returns
false, because the source compares the full `datetime` (keeping `now`'s
seconds) against an end time whose seconds were zeroed. -/
theorem business_hours_minute_granularity_counterexample :
    is_business_hours "09:00" "17:00" ⟨1, 17, 0, 30, 0⟩ = false ∧
    isOpenMinuteGranularity "09:00" "17:00" ⟨1, 17, 0, 30, 0⟩ = true :=
  ⟨by decide, by decide⟩

/-- Claim C7 (amended): weekends (Python weekday 5 and 6) are closed at
every hour; on weekdays the source is open iff
`start <= now <= end` compared as full times of day with the configured
bounds taken at second 0 and microsecond 0 — so with 09:00–17:00, Tuesday
08:59 is closed, 09:00 is open at every second, 17:00 is open only at
second 0 (17:00:30 is closed), and 17:01 is closed. -/
theorem business_hours_weekend_and_boundaries :
    (∀ now : LocalDateTime, now.weekday ≥ 5 →
      is_business_hours "09:00" "17:00" now = false) ∧
    (∀ now : LocalDateTime, now.weekday < 5 →
      (is_business_hours "09:00" "17:00" now = true ↔
        (timeKey 9 0 0 0 ≤ timeKey now.hour now.minute now.second now.microsecond ∧
         timeKey now.hour now.minute now.second now.microsecond ≤ timeKey 17 0 0 0))) ∧
    is_business_hours "09:00" "17:00" ⟨1, 8, 59, 0, 0⟩ = false ∧
    is_business_hours "09:00" "17:00" ⟨1, 9, 0, 0, 0⟩ = true ∧
    is_business_hours "09:00" "17:00" ⟨1, 9, 0, 59, 999999⟩ = true ∧
    is_business_hours "09:00" "17:00" ⟨1, 17, 0, 0, 0⟩ = true ∧
    is_business_hours "09:00" "17:00" ⟨1, 17, 1, 0, 0⟩ = false ∧
    is_business_hours "09:00" "17:00" ⟨5, 12, 0, 0, 0⟩ = false ∧
    is_business_hours "09:00" "17:00" ⟨6, 12, 0, 0, 0⟩ = false := by
  refine ⟨?_, ?_, by decide, by decide, by decide, by decide, by decide, by decide, by decide⟩
  · intro now h
    unfold is_business_hours
    rw [if_pos h]
  · intro now h
    unfold is_business_hours
    rw [if_neg (by omega)]
    rw [show parseHHMM "09:00" = (9, 0) from rfl, show parseHHMM "17:00" = (17, 0) from rfl]
    simp

/-- Witness for the amended C7 theorem on a concrete Sunday morning. -/
theorem business_hours_weekend_and_boundaries_witness :
    is_business_hours "09:00" "17:00" ⟨6, 10, 30, 0, 0⟩ = false :=
  business_hours_weekend_and_boundaries.1 ⟨6, 10, 30, 0, 0⟩ (by decide)

/-- Claim C8: `detect_transfer` returns the department whose literal marker
prefixes the input regardless of the trailing text (the marker check runs
before any keyword fallback, and the two markers cannot prefix the same
string); on marker-free input the support keyword set is tried before the
sales set, so text matching both fallbacks classifies as support, text
matching only the sales fallback classifies as sales, and text matching
nothing yields none — illustrated on concrete inputs, including the spec's
`"[TRANSFER_SUPPORT] Let's get you help."` and a support-marker reply whose
trailing text is full of sales keywords. -/
theorem detect_transfer_precedence :
    (∀ s : String, pyStartswith s TRANSFER_SALES_PREFIX = true →
      detect_transfer s = some "sales") ∧
    (∀ s : String, pyStartswith s TRANSFER_SUPPORT_PREFIX = true →
      detect_transfer s = some "support") ∧
    (∀ s : String, pyStartswith s TRANSFER_SALES_PREFIX = false →
      pyStartswith s TRANSFER_SUPPORT_PREFIX = false →
      supportKeywordsSearch s = true →
      detect_transfer s = some "support") ∧
    (∀ s : String, pyStartswith s TRANSFER_SALES_PREFIX = false →
      pyStartswith s TRANSFER_SUPPORT_PREFIX = false →
      supportKeywordsSearch s = false →
      salesKeywordsSearch s = true →
      detect_transfer s = some "sales") ∧
    (∀ s : String, pyStartswith s TRANSFER_SALES_PREFIX = false →
      pyStartswith s TRANSFER_SUPPORT_PREFIX = false →
      supportKeywordsSearch s = false →
      salesKeywordsSearch s = false →
      detect_transfer s = none) ∧
    detect_transfer ("[TRANSFER_SUPPORT] Let" ++ apos ++ "s get you help.") = some "support" ∧
    detect_transfer "[TRANSFER_SUPPORT] I can transfer you to pricing and sales." = some "support" ∧
    supportKeywordsSearch "Let me connect you with support and pricing options." = true ∧
    salesKeywordsSearch "Let me connect you with support and pricing options." = true ∧
    detect_transfer "Let me connect you with support and pricing options." = some "support" ∧
    supportKeywordsSearch "I will transfer you to our team." = false ∧
    salesKeywordsSearch "I will transfer you to our team." = true ∧
    detect_transfer "I will transfer you to our team." = some "sales" ∧
    detect_transfer "Our hours are nine to five." = none := by
  refine ⟨?_, ?_, ?_, ?_, ?_, by decide, by decide, by decide, by decide, by decide,
    by decide, by decide, by decide, by decide⟩
  · intro s h
    simp [detect_transfer, h]
  · intro s h
    have hs := support_marker_not_sales s h
    simp [detect_transfer, h, hs]
  · intro s h1 h2 h3
    simp [detect_transfer, h1, h2, h3]
  · intro s h1 h2 h3 h4
    simp [detect_transfer, h1, h2, h3, h4]
  · intro s h1 h2 h3 h4
    simp [detect_transfer, h1, h2, h3, h4]

/-- Witness for the C8 theorem: applying the no-match case at a concrete
marker-free, keyword-free utterance. -/
theorem detect_transfer_precedence_witness :
    detect_transfer "Have a wonderful day." = none :=
  detect_transfer_precedence.2.2.2.2.1 "Have a wonderful day."
    (by decide) (by decide) (by decide) (by decide)

end VoiceAgent

